import Mathlib

/-!
Verification of the responder-side C-API of the DCAP mutual-remote-attestation
key exchange (`sgx_dcap/tkey_exchange/src/capi/responder.rs`).

The C-API layer is embedded faithfully from the source: pointers are naturals
(0 is the null pointer), untrusted host/enclave memory is an abstract byte
function, the `is_within_enclave` / `is_within_host` primitives are abstract
boolean predicates, and the struct sizes from `sgx_types` (whose definitions
are outside this crate) are abstract constants.  All of these live in a
`Config` record over which every theorem is universally quantified.

The inner session-layer operations (`Responder::process_msg1`,
`Responder::generate_msg2`, `Responder::process_msg3`,
`Responder::get_peer_identity`, `Responder::get_keys`,
`DcapRaMsg3::from_slice`, `DcapMRaMsg2::check_quote_len`) are not part of the
available sources; they are modelled from the specification and are marked as
such in their doc comments.
-/

namespace DcapMra

/-- Status codes returned at the boundary.  `InvalidParameter`, `Success` are
the literal `SgxStatus` values used by the C-API source; the remaining
constructors are the error taxonomy of the specification for the inner
(spec-modelled) operations. -/
inductive SgxStatus
  | Success
  | InvalidParameter
  | InvalidState
  | CryptoFailure
  | ReportMismatch
  | InvalidQuote
  | SizeMismatch
  | MacMismatch
  | MacVerifyFailed
  | QuoteNotTrusted
  | QuoteExpired
  | BindingMismatch
  deriving DecidableEq, Repr

/-- Protocol state of a responder session (spec §3). -/
inductive SessionState
  | created
  | msg1Processed
  | msg2Sent
  | msg3Verified
  | closed
  deriving DecidableEq, Repr

/-- Position of a state in the strictly monotonic protocol order. -/
def SessionState.idx : SessionState → Nat
  | .created => 0
  | .msg1Processed => 1
  | .msg2Sent => 2
  | .msg3Verified => 3
  | .closed => 4

/-- Modelled from the spec: the responder `Session Context` (spec §3).  Key
material, identities and curve points are abstracted as naturals. -/
structure Session where
  state : SessionState
  privKey : Nat
  pubKeyB : Nat
  peerPubKey : Nat
  sharedSecret : Nat
  smk : Nat
  skKey : Nat
  mkKey : Nat
  vkKey : Nat
  nonce : Nat
  peerIdentity : Nat
  qvResult : Nat
  deriving DecidableEq, Repr

/-- Parsed message 3 (spec §6 wire layout: 16-byte mac, 64-byte echoed
public key, 256-byte security properties, 4-byte quote length, quote tail). -/
structure Msg3 where
  mac : Nat
  echoedPubKey : Nat
  secProps : List Nat
  quote : List Nat
  deriving DecidableEq, Repr

/-- Message 2 produced by the inner `generate_msg2`. -/
structure Msg2 where
  mac : Nat
  pub_key_b : Nat
  kdf_id : Nat
  deriving DecidableEq, Repr

/-- The verification information handed to the inner `process_msg3`
(the `QveReportInfo` record of the source). -/
structure QveReportInfo where
  expiration_time : Int
  collateral_expiration_status : Nat
  quote_verification_result : Nat
  qve_nonce : Nat
  qve_report : Nat
  supplemental_data : Option (List Nat)
  deriving DecidableEq, Repr

/-- Environment of a call: abstract memory, the trusted-region predicates,
the `sgx_types` struct sizes, the configured quote bounds, and the abstract
cryptographic primitives of the session layer. -/
structure Config where
  /-- byte of (host or enclave) memory at an address, as read by raw slices -/
  mem : Nat → Nat
  /-- `is_within_enclave(ptr, size)` primitive -/
  is_within_enclave : Nat → Nat → Bool
  /-- `is_within_host(ptr, size)` primitive -/
  is_within_host : Nat → Nat → Bool
  /-- abstract read of an `Ec256PublicKey` value stored at an address -/
  pubKeyAt : Nat → Nat
  /-- abstract read of a `TargetInfo` value stored at an address -/
  targetAt : Nat → Nat
  /-- abstract read of a `Report` value stored at an address -/
  reportAt : Nat → Nat
  /-- abstract read of a `QuoteNonce` value stored at an address -/
  nonceAt : Nat → Nat
  /-- `mem::size_of::<CDcapRaMsg1>()` -/
  sizeRaMsg1 : Nat
  /-- `mem::size_of::<TargetInfo>()` -/
  sizeTargetInfo : Nat
  /-- `mem::size_of::<Ec256PublicKey>()` -/
  sizePubKey : Nat
  /-- `mem::size_of::<Report>()` -/
  sizeReport : Nat
  /-- `mem::size_of::<QuoteNonce>()` -/
  sizeNonce : Nat
  /-- `mem::size_of::<CDcapMRaMsg2>()` (the fixed message-2 header) -/
  sizeMRaMsg2 : Nat
  /-- `mem::size_of::<CDcapRaMsg3>()` (the fixed message-3 header) -/
  sizeRaMsg3 : Nat
  /-- `mem::size_of::<Quote3>()` (minimum quote structure) -/
  sizeQuote3 : Nat
  /-- `mem::size_of::<QlQvResult>()` -/
  sizeQvResult : Nat
  /-- `mem::size_of::<CEnclaveIdentity>()` -/
  sizeIdentity : Nat
  /-- `mem::size_of::<Key128bit>()` -/
  sizeKey : Nat
  /-- byte offset of the `quote_size` field inside `CDcapMRaMsg2` -/
  quoteSizeOff : Nat
  /-- byte offset of the `quote` tail inside `CDcapMRaMsg2` -/
  quoteOff : Nat
  /-- configured minimum accepted quote length -/
  minQuote : Nat
  /-- configured maximum accepted quote length -/
  maxQuote : Nat
  /-- HMAC over (echoed public key, security properties, quote) keyed by SMK -/
  hmac3 : Nat → Nat → List Nat → List Nat → Nat
  /-- HMAC over (own public key, kdf id) keyed by SMK, for message 2 -/
  macMsg2 : Nat → Nat → Nat → Nat
  /-- the key-derivation function (shared secret, label) -/
  kdf : Nat → Nat → Nat
  /-- the kdf identifier placed in message 2 -/
  kdfId : Nat
  /-- Diffie-Hellman agreement; `none` models a curve failure -/
  dh : Nat → Nat → Option Nat
  /-- hash binding (peer public key, own public key) into report data -/
  bindHash : Nat → Nat → Nat
  /-- local attestation report request for (target, bound report data) -/
  mkReport : Nat → Nat → Nat
  /-- the fresh anti-replay nonce generated while processing message 1 -/
  freshNonce : Nat
  /-- `generate_msg2`'s validation of the attested report against the one
  requested in step 1 -/
  reportMatches : Session → Nat → Bool
  /-- configured accepted-tier policy on (verdict, collateral status) -/
  accepted : Nat → Nat → Bool
  /-- current trusted time -/
  currentTime : Int
  /-- report data embedded in a quote -/
  quoteReportData : List Nat → Nat
  /-- peer identity extracted from a quote -/
  quoteIdentity : List Nat → Nat
  /-- result of `Responder::new()` in `sgx_mra_responder_init` -/
  newResponder : Except SgxStatus Session
  /-- the raw handle value written back by `sgx_mra_responder_init` -/
  rawHandle : Nat

/-- `usize::MAX` on the 64-bit target. -/
def usizeMax : Nat := 2 ^ 64 - 1

/-- Little-endian value of a byte list. -/
def natOfBytes (l : List Nat) : Nat :=
  l.foldr (fun b acc => b % 256 + 256 * acc) 0

/-- The byte slice of length `n` starting at `addr`
(`slice::from_raw_parts(addr, n)`). -/
def readBytes (cfg : Config) (addr n : Nat) : List Nat :=
  (List.range n).map fun i => cfg.mem (addr + i) % 256

/-- Little-endian `u32` read at an address (the `quote_size` field read). -/
def readU32 (cfg : Config) (addr : Nat) : Nat :=
  natOfBytes (readBytes cfg addr 4)

@[simp] theorem readBytes_length (cfg : Config) (addr n : Nat) :
    (readBytes cfg addr n).length = n := by
  simp [readBytes]

/-- Modelled from the spec: `DcapMRaMsg2::check_quote_len` (not under the
available sources) — the quote length must satisfy the configured
minimum/maximum bounds. -/
def check_quote_len (cfg : Config) (n : Nat) : Bool :=
  decide (cfg.minQuote ≤ n ∧ n ≤ cfg.maxQuote)

/-- Fixed byte offsets of the message-3 header fields (spec §6):
mac 16 bytes, echoed public key 64 bytes, security properties 256 bytes,
quote size 4 bytes. -/
def msg3HeaderSize : Nat := 16 + 64 + 256 + 4

/-- Modelled from the spec: `DcapRaMsg3::from_slice` (not under the available
sources) — parses the fixed header plus the variable-length quote; the quote
length must satisfy the configured bounds and the total size must equal
header size plus declared quote length exactly, else `SizeMismatch`. -/
def from_slice (cfg : Config) (bytes : List Nat) : Except SgxStatus Msg3 :=
  if bytes.length < msg3HeaderSize then .error .SizeMismatch
  else
    let quoteSize := natOfBytes ((bytes.drop 336).take 4)
    if ¬ check_quote_len cfg quoteSize then .error .SizeMismatch
    else if bytes.length ≠ msg3HeaderSize + quoteSize then .error .SizeMismatch
    else .ok { mac := natOfBytes (bytes.take 16)
               echoedPubKey := natOfBytes ((bytes.drop 16).take 64)
               secProps := (bytes.drop 80).take 256
               quote := bytes.drop 340 }

/-- Modelled from the spec: `Responder::process_msg1` (not under the available
sources) — requires state `Created`; stores the peer key, computes the shared
secret and SMK, produces the report request bound to
`hash(peer_pub, own_pub)` and a fresh nonce; transitions to `Msg1Processed`;
`CryptoFailure` on curve error. -/
def process_msg1 (cfg : Config) (s : Session) (peerPub target : Nat) :
    Except SgxStatus ((Nat × Nat × Nat) × Session) :=
  if s.state ≠ .created then .error .InvalidState
  else
    match cfg.dh s.privKey peerPub with
    | none => .error .CryptoFailure
    | some secret =>
      .ok ((s.pubKeyB, cfg.mkReport target (cfg.bindHash peerPub s.pubKeyB),
            cfg.freshNonce),
           { s with state := .msg1Processed
                    peerPubKey := peerPub
                    sharedSecret := secret
                    smk := cfg.kdf secret 0
                    nonce := cfg.freshNonce })

/-- Modelled from the spec: `Responder::generate_msg2` (not under the
available sources) — requires state `Msg1Processed`; validates the attested
report (`ReportMismatch`), validates the quote length against the configured
bounds (`InvalidQuote`); computes `mac = HMAC(SMK, own_pub_key || kdf_id)`;
transitions to `Msg2Sent`. -/
def generate_msg2 (cfg : Config) (s : Session) (qeReport : Nat)
    (quote : List Nat) : Except SgxStatus (Msg2 × Session) :=
  if s.state ≠ .msg1Processed then .error .InvalidState
  else if ¬ cfg.reportMatches s qeReport then .error .ReportMismatch
  else if ¬ check_quote_len cfg quote.length then .error .InvalidQuote
  else .ok ({ mac := cfg.macMsg2 s.smk s.pubKeyB cfg.kdfId
              pub_key_b := s.pubKeyB
              kdf_id := cfg.kdfId },
            { s with state := .msg2Sent })

/-- Modelled from the spec: the Quote Trust Evaluator (spec §4.3) — checks
the verdict against the configured accepted-tier policy (`QuoteNotTrusted`)
and the declared expiration time against current trusted time
(`QuoteExpired`). -/
def trustEval (cfg : Config) (info : QveReportInfo) : Except SgxStatus Unit :=
  if ¬ cfg.accepted info.quote_verification_result
        info.collateral_expiration_status then .error .QuoteNotTrusted
  else if info.expiration_time < cfg.currentTime then .error .QuoteExpired
  else .ok ()

/-- Modelled from the spec: `Responder::process_msg3` (not under the
available sources) — requires state `Msg2Sent`; the echoed public key must
equal the stored one (`MacMismatch`); recomputes
`HMAC(SMK, echoed_pub_key || security_properties || quote)` and compares it
against the supplied mac (`MacVerifyFailed`, state unchanged); derives and
caches SK, MK, VK; delegates trust evaluation (state remains `Msg2Sent` on
rejection); checks the quote's report-data binding (`BindingMismatch`);
transitions to `Msg3Verified` only if all checks pass. -/
def process_msg3 (cfg : Config) (s : Session) (m : Msg3)
    (info : QveReportInfo) : SgxStatus × Session :=
  if s.state ≠ .msg2Sent then (.InvalidState, s)
  else if m.echoedPubKey ≠ s.peerPubKey then (.MacMismatch, s)
  else if m.mac ≠ cfg.hmac3 s.smk m.echoedPubKey m.secProps m.quote then
    (.MacVerifyFailed, s)
  else
    let s1 := { s with skKey := cfg.kdf s.sharedSecret 1
                       mkKey := cfg.kdf s.sharedSecret 2
                       vkKey := cfg.kdf s.sharedSecret 3 }
    match trustEval cfg info with
    | .error e => (e, s1)
    | .ok _ =>
      if cfg.quoteReportData m.quote ≠ cfg.bindHash m.echoedPubKey s.pubKeyB
      then (.BindingMismatch, s1)
      else (.Success,
            { s1 with state := .msg3Verified
                      peerIdentity := cfg.quoteIdentity m.quote
                      qvResult := info.quote_verification_result })

/-- Modelled from the spec: `Responder::get_peer_identity` (not under the
available sources) — pure read; requires state `Msg3Verified`, else
`InvalidState`. -/
def get_peer_identity (s : Session) : Except SgxStatus (Nat × Nat) :=
  if s.state ≠ .msg3Verified then .error .InvalidState
  else .ok (s.qvResult, s.peerIdentity)

/-- Key selector of `sgx_mra_responder_get_keys` (SMK is internal-only). -/
inductive RaKeyType
  | sk
  | mk
  | vk
  deriving DecidableEq, Repr

/-- Modelled from the spec: `Responder::get_keys` (not under the available
sources) — keys are withheld until the peer is verified
(state ≥ `Msg3Verified`), else `InvalidState`. -/
def get_keys (s : Session) (kt : RaKeyType) : Except SgxStatus Nat :=
  if s.state.idx < SessionState.msg3Verified.idx then .error .InvalidState
  else
    match kt with
    | .sk => .ok s.skKey
    | .mk => .ok s.mkKey
    | .vk => .ok s.vkKey

end DcapMra

namespace DcapMra

/-- Observable events of a C-API call, in execution order: reading a byte
range of a caller buffer, the two validations of the untrusted `quote_size`
field, the construction of the quote slice from it, and the invocation of the
inner session operation (recording whether supplemental data was passed as
present). -/
inductive Event
  | readBuffer (addr : Nat)
  | quoteLenChecked
  | sizeEqChecked
  | quoteSliced
  | innerCall (suppPresent : Bool)
  deriving DecidableEq, Repr

/-- Result of a C-API call: the returned status, the values written to the
caller-supplied output locations (`none` when nothing was written), the
session context after the call, and the event trace. -/
structure CapiOut (α : Type) where
  status : SgxStatus
  written : Option α
  session : Session
  trace : List Event
  deriving DecidableEq, Repr

/-- `sgx_mra_responder_init` (responder.rs:33): null check on the context
output, `Responder::new()`, and the context handle written only on success. -/
def sgx_mra_responder_init (cfg : Config) (context : Nat) :
    SgxStatus × Option Nat :=
  if context = 0 then (.InvalidParameter, none)
  else
    match cfg.newResponder with
    | .error e => (e, none)
    | .ok _ => (.Success, some cfg.rawHandle)

/-- `sgx_dcap_mra_proc_msg1` (responder.rs:49): null checks, the
`is_within_enclave` checks on all five buffers, then the inner
`process_msg1`; the three outputs are written only on success. -/
def sgx_dcap_mra_proc_msg1 (cfg : Config) (s : Session)
    (msg1 qe_target pub_key_b report nonce : Nat) :
    CapiOut (Nat × Nat × Nat) :=
  if msg1 = 0 ∨ qe_target = 0 ∨ pub_key_b = 0 ∨ report = 0 ∨ nonce = 0 then
    ⟨.InvalidParameter, none, s, []⟩
  else if ¬ cfg.is_within_enclave msg1 cfg.sizeRaMsg1
       ∨ ¬ cfg.is_within_enclave qe_target cfg.sizeTargetInfo
       ∨ ¬ cfg.is_within_enclave pub_key_b cfg.sizePubKey
       ∨ ¬ cfg.is_within_enclave report cfg.sizeReport
       ∨ ¬ cfg.is_within_enclave nonce cfg.sizeNonce then
    ⟨.InvalidParameter, none, s, []⟩
  else
    match process_msg1 cfg s (cfg.pubKeyAt msg1) (cfg.targetAt qe_target) with
    | .error e => ⟨e, none, s, []⟩
    | .ok (out, s1) => ⟨.Success, some out, s1, []⟩

/-- Body of `sgx_dcap_mra_get_msg2` after the pointer, size and region
checks (responder.rs:118-139): reads the untrusted `quote_size` field,
range-checks it with `check_quote_len`, requires the total size to equal
header + `quote_size` exactly, builds the quote slice and runs the inner
`generate_msg2`. -/
def get_msg2_checked (cfg : Config) (s : Session)
    (qe_report msg2 : Nat) (msg2_size : Nat) :
    CapiOut (Nat × Nat × Nat) :=
  let quote_size := readU32 cfg (msg2 + cfg.quoteSizeOff)
  let t0 := [Event.readBuffer (msg2 + cfg.quoteSizeOff)]
  if ¬ check_quote_len cfg quote_size then ⟨.InvalidParameter, none, s, t0⟩
  else if msg2_size ≠ (cfg.sizeMRaMsg2 + quote_size) % 2 ^ 32 then
    ⟨.InvalidParameter, none, s, t0 ++ [.quoteLenChecked]⟩
  else
    let quote := readBytes cfg (msg2 + cfg.quoteOff) quote_size
    let t1 := t0 ++ [.quoteLenChecked, .sizeEqChecked, .quoteSliced]
    match generate_msg2 cfg s (cfg.reportAt qe_report) quote with
    | .error e => ⟨e, none, s, t1⟩
    | .ok (m2, s1) =>
      ⟨.Success, some (m2.mac, m2.pub_key_b, m2.kdf_id), s1, t1⟩

/-- `sgx_dcap_mra_get_msg2` (responder.rs:92): null checks; address-overflow
and minimum-size check on `msg2_size`; the msg2 buffer may lie in either the
enclave or the host region; `qe_report` must lie in the enclave; then the
untrusted `quote_size` field is read, range-checked with `check_quote_len`,
the total size must equal header + `quote_size` exactly, the quote slice is
built and the inner `generate_msg2` runs; the msg2 header fields
(mac, g_b, kdf_id) are written only on success. -/
def sgx_dcap_mra_get_msg2 (cfg : Config) (s : Session)
    (qe_report msg2 : Nat) (msg2_size : Nat) :
    CapiOut (Nat × Nat × Nat) :=
  if qe_report = 0 ∨ msg2 = 0 then ⟨.InvalidParameter, none, s, []⟩
  else if usizeMax - msg2 < msg2_size
       ∨ msg2_size < (cfg.sizeMRaMsg2 + cfg.sizeQuote3) % 2 ^ 32 then
    ⟨.InvalidParameter, none, s, []⟩
  else if ¬ (cfg.is_within_enclave msg2 msg2_size
             ∨ cfg.is_within_host msg2 msg2_size) then
    ⟨.InvalidParameter, none, s, []⟩
  else if ¬ cfg.is_within_enclave qe_report cfg.sizeReport then
    ⟨.InvalidParameter, none, s, []⟩
  else get_msg2_checked cfg s qe_report msg2 msg2_size

/-- Body of `sgx_dcap_mra_proc_msg3` after the pointer, size and region
checks (responder.rs:191-224): reads the msg3 slice, parses it with
`from_slice`, and runs the inner `process_msg3` with supplemental data
passed as present exactly when the pointer is non-null. -/
def proc_msg3_checked (cfg : Config) (s : Session)
    (msg3 : Nat) (msg3_size : Nat) (expiration_time : Int)
    (collateral_expiration_status quote_verification_result : Nat)
    (qve_nonce qve_report supplemental_data supplemental_data_size : Nat) :
    CapiOut Unit :=
  let bytes := readBytes cfg msg3 msg3_size
  let t0 := [Event.readBuffer msg3]
  match from_slice cfg bytes with
  | .error e => ⟨e, none, s, t0⟩
  | .ok m =>
    let supp := if supplemental_data ≠ 0 then
        some (readBytes cfg supplemental_data supplemental_data_size)
      else none
    let info : QveReportInfo :=
      { expiration_time := expiration_time
        collateral_expiration_status := collateral_expiration_status
        quote_verification_result := quote_verification_result
        qve_nonce := cfg.nonceAt qve_nonce
        qve_report := cfg.reportAt qve_report
        supplemental_data := supp }
    let r := process_msg3 cfg s m info
    ⟨r.1, none, r.2, t0 ++ [.innerCall supp.isSome]⟩

/-- `sgx_dcap_mra_proc_msg3` (responder.rs:144): null checks; the
pointer/length pairing of the optional supplemental data; address-overflow
and minimum-size check on `msg3_size`; the msg3 buffer may lie in either the
enclave or the host region; `qve_nonce`, `qve_report` and (when non-null) the
supplemental data must lie in the enclave; then the msg3 slice is read and
parsed by `from_slice` and the inner `process_msg3` runs with supplemental
data passed as present exactly when the pointer is non-null. -/
def sgx_dcap_mra_proc_msg3 (cfg : Config) (s : Session)
    (msg3 : Nat) (msg3_size : Nat) (expiration_time : Int)
    (collateral_expiration_status quote_verification_result : Nat)
    (qve_nonce qve_report supplemental_data supplemental_data_size : Nat) :
    CapiOut Unit :=
  if msg3 = 0 ∨ qve_nonce = 0 ∨ qve_report = 0 then
    ⟨.InvalidParameter, none, s, []⟩
  else if supplemental_data = 0 ∧ supplemental_data_size ≠ 0 then
    ⟨.InvalidParameter, none, s, []⟩
  else if supplemental_data ≠ 0 ∧ supplemental_data_size = 0 then
    ⟨.InvalidParameter, none, s, []⟩
  else if usizeMax - msg3 < msg3_size
       ∨ msg3_size < (cfg.sizeRaMsg3 + cfg.sizeQuote3) % 2 ^ 32 then
    ⟨.InvalidParameter, none, s, []⟩
  else if ¬ (cfg.is_within_enclave msg3 msg3_size
             ∨ cfg.is_within_host msg3 msg3_size) then
    ⟨.InvalidParameter, none, s, []⟩
  else if ¬ cfg.is_within_enclave qve_nonce cfg.sizeNonce
       ∨ ¬ cfg.is_within_enclave qve_report cfg.sizeReport then
    ⟨.InvalidParameter, none, s, []⟩
  else if supplemental_data ≠ 0
       ∧ ¬ cfg.is_within_enclave supplemental_data supplemental_data_size then
    ⟨.InvalidParameter, none, s, []⟩
  else
    proc_msg3_checked cfg s msg3 msg3_size expiration_time
      collateral_expiration_status quote_verification_result
      qve_nonce qve_report supplemental_data supplemental_data_size

/-- `sgx_mra_responder_get_peer_identity` (responder.rs:229): null and
`is_within_enclave` checks on the two outputs, then the inner pure read; the
verdict and the identity are written only on success. -/
def sgx_mra_responder_get_peer_identity (cfg : Config) (s : Session)
    (quote_verification_result enclave_identity : Nat) :
    CapiOut (Nat × Nat) :=
  if quote_verification_result = 0 ∨ enclave_identity = 0 then
    ⟨.InvalidParameter, none, s, []⟩
  else if ¬ cfg.is_within_enclave quote_verification_result cfg.sizeQvResult
  then ⟨.InvalidParameter, none, s, []⟩
  else if ¬ cfg.is_within_enclave enclave_identity cfg.sizeIdentity then
    ⟨.InvalidParameter, none, s, []⟩
  else
    match get_peer_identity s with
    | .error e => ⟨e, none, s, []⟩
    | .ok out => ⟨.Success, some out, s, []⟩

/-- `sgx_mra_responder_get_keys` (responder.rs:264): null and
`is_within_enclave` checks on the key output, then the inner `get_keys`; the
key is written only on success. -/
def sgx_mra_responder_get_keys (cfg : Config) (s : Session)
    (key_type : RaKeyType) (key : Nat) : CapiOut Nat :=
  if key = 0 then ⟨.InvalidParameter, none, s, []⟩
  else if ¬ cfg.is_within_enclave key cfg.sizeKey then
    ⟨.InvalidParameter, none, s, []⟩
  else
    match get_keys s key_type with
    | .error e => ⟨e, none, s, []⟩
    | .ok k => ⟨.Success, some k, s, []⟩

end DcapMra

namespace DcapMra

/-- A concrete sample environment used by the witnesses. -/
def baseCfg : Config where
  mem := fun _ => 0
  is_within_enclave := fun _ _ => true
  is_within_host := fun _ _ => false
  pubKeyAt := fun _ => 0
  targetAt := fun _ => 0
  reportAt := fun _ => 0
  nonceAt := fun _ => 0
  sizeRaMsg1 := 64
  sizeTargetInfo := 512
  sizePubKey := 64
  sizeReport := 432
  sizeNonce := 16
  sizeMRaMsg2 := 86
  sizeRaMsg3 := 340
  sizeQuote3 := 0
  sizeQvResult := 4
  sizeIdentity := 128
  sizeKey := 16
  quoteSizeOff := 82
  quoteOff := 86
  minQuote := 0
  maxQuote := 4096
  hmac3 := fun _ _ _ _ => 0
  macMsg2 := fun _ _ _ => 0
  kdf := fun _ _ => 0
  kdfId := 2
  dh := fun _ _ => some 0
  bindHash := fun _ _ => 0
  mkReport := fun _ _ => 0
  freshNonce := 0
  reportMatches := fun _ _ => true
  accepted := fun _ _ => true
  currentTime := 0
  quoteReportData := fun _ => 0
  quoteIdentity := fun _ => 0
  newResponder := .error .CryptoFailure
  rawHandle := 7

/-- A concrete sample session used by the witnesses. -/
def baseSession : Session where
  state := .created
  privKey := 0
  pubKeyB := 0
  peerPubKey := 0
  sharedSecret := 0
  smk := 0
  skKey := 0
  mkKey := 0
  vkKey := 0
  nonce := 0
  peerIdentity := 0
  qvResult := 0

/-- C2: in `sgx_dcap_mra_get_msg2`, a total buffer size `msg2_size` different
from the fixed message-2 header size plus the declared `quote_size` makes the
call fail with `InvalidParameter`, writing no message and leaving the session
unchanged; the operation proceeds only on exact equality. -/
theorem c2_msg2_size_must_be_exact (cfg : Config) (s : Session)
    (qe_report msg2 msg2_size : Nat)
    (hbound : cfg.sizeMRaMsg2 + cfg.maxQuote < 2 ^ 32)
    (hne : msg2_size ≠ cfg.sizeMRaMsg2 + readU32 cfg (msg2 + cfg.quoteSizeOff)) :
    (sgx_dcap_mra_get_msg2 cfg s qe_report msg2 msg2_size).status
        = .InvalidParameter
    ∧ (sgx_dcap_mra_get_msg2 cfg s qe_report msg2 msg2_size).written = none
    ∧ (sgx_dcap_mra_get_msg2 cfg s qe_report msg2 msg2_size).session = s := by
  unfold sgx_dcap_mra_get_msg2 get_msg2_checked
  dsimp only
  split_ifs with h1 h2 h3 h4 h5 h6 <;> try exact ⟨rfl, rfl, rfl⟩
  exfalso
  simp only [ne_eq, not_not] at h6
  have hle : readU32 cfg (msg2 + cfg.quoteSizeOff) ≤ cfg.maxQuote := by
    simp only [check_quote_len, decide_eq_true_eq] at h5
    exact h5.2
  rw [Nat.mod_eq_of_lt (by omega)] at h6
  exact hne h6


/-- When the pointer, size and region checks of `sgx_dcap_mra_get_msg2` all
pass, the call executes its checked body. -/
theorem get_msg2_reach (cfg : Config) (s : Session)
    (qe_report msg2 msg2_size : Nat)
    (h1 : ¬ (qe_report = 0 ∨ msg2 = 0))
    (h2 : ¬ (usizeMax - msg2 < msg2_size
             ∨ msg2_size < (cfg.sizeMRaMsg2 + cfg.sizeQuote3) % 2 ^ 32))
    (h3 : cfg.is_within_enclave msg2 msg2_size = true
          ∨ cfg.is_within_host msg2 msg2_size = true)
    (h4 : cfg.is_within_enclave qe_report cfg.sizeReport = true) :
    sgx_dcap_mra_get_msg2 cfg s qe_report msg2 msg2_size
      = get_msg2_checked cfg s qe_report msg2 msg2_size := by
  unfold sgx_dcap_mra_get_msg2
  rw [if_neg h1, if_neg h2, if_neg (not_not_intro h3),
      if_neg (not_not_intro h4)]

/-- When the pointer, pairing, size and region checks of
`sgx_dcap_mra_proc_msg3` all pass, the call executes its checked body. -/
theorem proc_msg3_reach (cfg : Config) (s : Session)
    (msg3 msg3_size : Nat) (expiration_time : Int)
    (collateral_expiration_status quote_verification_result : Nat)
    (qve_nonce qve_report supplemental_data supplemental_data_size : Nat)
    (h1 : ¬ (msg3 = 0 ∨ qve_nonce = 0 ∨ qve_report = 0))
    (h2 : ¬ (supplemental_data = 0 ∧ supplemental_data_size ≠ 0))
    (h3 : ¬ (supplemental_data ≠ 0 ∧ supplemental_data_size = 0))
    (h4 : ¬ (usizeMax - msg3 < msg3_size
             ∨ msg3_size < (cfg.sizeRaMsg3 + cfg.sizeQuote3) % 2 ^ 32))
    (h5 : cfg.is_within_enclave msg3 msg3_size = true
          ∨ cfg.is_within_host msg3 msg3_size = true)
    (h6 : ¬ (¬ cfg.is_within_enclave qve_nonce cfg.sizeNonce = true
             ∨ ¬ cfg.is_within_enclave qve_report cfg.sizeReport = true))
    (h7 : ¬ (supplemental_data ≠ 0
             ∧ ¬ cfg.is_within_enclave supplemental_data
                   supplemental_data_size = true)) :
    sgx_dcap_mra_proc_msg3 cfg s msg3 msg3_size expiration_time
        collateral_expiration_status quote_verification_result
        qve_nonce qve_report supplemental_data supplemental_data_size
      = proc_msg3_checked cfg s msg3 msg3_size expiration_time
          collateral_expiration_status quote_verification_result
          qve_nonce qve_report supplemental_data supplemental_data_size := by
  unfold sgx_dcap_mra_proc_msg3
  rw [if_neg h1, if_neg h2, if_neg h3, if_neg h4, if_neg (not_not_intro h5),
      if_neg h6, if_neg h7]

/-- Witness for the C2 theorem: a buffer whose `quote_size` field reads 0 and
a total size of 5 ≠ 86 + 0 is rejected with `InvalidParameter`, nothing is
written and the session is unchanged. -/
theorem c2_msg2_size_must_be_exact_witness :
    (sgx_dcap_mra_get_msg2 baseCfg baseSession 1 2 5).status
        = .InvalidParameter
    ∧ (sgx_dcap_mra_get_msg2 baseCfg baseSession 1 2 5).written = none
    ∧ (sgx_dcap_mra_get_msg2 baseCfg baseSession 1 2 5).session
        = baseSession :=
  c2_msg2_size_must_be_exact baseCfg baseSession 1 2 5 (by decide) (by decide)


/-- With all boundary checks passing and message 3 parsing to `m` from state
`Msg2Sent` with a matching echoed public key, a mac that differs from the
recomputed HMAC makes `sgx_dcap_mra_proc_msg3` return `MacVerifyFailed` and
leave the session untouched. -/
theorem proc_msg3_bad_mac (cfg : Config) (s : Session)
    (msg3 msg3_size : Nat) (expiration_time : Int)
    (collateral_expiration_status quote_verification_result : Nat)
    (qve_nonce qve_report supplemental_data supplemental_data_size : Nat)
    (m : Msg3)
    (h1 : ¬ (msg3 = 0 ∨ qve_nonce = 0 ∨ qve_report = 0))
    (h2 : ¬ (supplemental_data = 0 ∧ supplemental_data_size ≠ 0))
    (h3 : ¬ (supplemental_data ≠ 0 ∧ supplemental_data_size = 0))
    (h4 : ¬ (usizeMax - msg3 < msg3_size
             ∨ msg3_size < (cfg.sizeRaMsg3 + cfg.sizeQuote3) % 2 ^ 32))
    (h5 : cfg.is_within_enclave msg3 msg3_size = true
          ∨ cfg.is_within_host msg3 msg3_size = true)
    (h6 : ¬ (¬ cfg.is_within_enclave qve_nonce cfg.sizeNonce = true
             ∨ ¬ cfg.is_within_enclave qve_report cfg.sizeReport = true))
    (h7 : ¬ (supplemental_data ≠ 0
             ∧ ¬ cfg.is_within_enclave supplemental_data
                   supplemental_data_size = true))
    (hok : from_slice cfg (readBytes cfg msg3 msg3_size) = .ok m)
    (hstate : s.state = .msg2Sent)
    (hecho : m.echoedPubKey = s.peerPubKey)
    (hmac : m.mac ≠ cfg.hmac3 s.smk m.echoedPubKey m.secProps m.quote) :
    (sgx_dcap_mra_proc_msg3 cfg s msg3 msg3_size expiration_time
        collateral_expiration_status quote_verification_result
        qve_nonce qve_report supplemental_data
        supplemental_data_size).status = .MacVerifyFailed
    ∧ (sgx_dcap_mra_proc_msg3 cfg s msg3 msg3_size expiration_time
        collateral_expiration_status quote_verification_result
        qve_nonce qve_report supplemental_data
        supplemental_data_size).session = s := by
  rw [proc_msg3_reach cfg s msg3 msg3_size expiration_time
        collateral_expiration_status quote_verification_result
        qve_nonce qve_report supplemental_data supplemental_data_size
        h1 h2 h3 h4 h5 h6 h7]
  unfold proc_msg3_checked
  dsimp only
  rw [hok]
  dsimp only
  unfold process_msg3
  rw [if_neg (not_not_intro hstate), if_neg (not_not_intro hecho),
      if_pos hmac]
  exact ⟨rfl, rfl⟩

/-- Flipping any single bit of a natural changes it. -/
theorem xor_two_pow_ne (e i : Nat) : e ^^^ 2 ^ i ≠ e := by
  intro h
  have h2 := congrArg (fun x => Nat.testBit x i) h
  simp [Nat.testBit_two_pow_self] at h2

/-- Sample environment whose HMAC differs from the zero mac of the sample
message 3. -/
def macCfg : Config := { baseCfg with hmac3 := fun _ _ _ _ => 1 }

/-- Sample environment delivering a message 3 whose mac field has bit 0 of
the (zero) correct mac flipped. -/
def flipCfg : Config :=
  { baseCfg with mem := fun a => if a = 1000 then 1 else 0 }

/-- A session that has sent message 2. -/
def msg2SentSession : Session := { baseSession with state := .msg2Sent }

/-- C1: in `sgx_dcap_mra_proc_msg3`, with the boundary checks passing, a
session in state `Msg2Sent` and a parsed message 3 whose echoed public key
matches, (a) a mac different from the HMAC recomputed over the echoed public
key, security properties and quote bytes yields `MacVerifyFailed` with the
session unchanged, still in `Msg2Sent`; (b) in particular a mac equal to the
correct one with any single bit (of the 128) flipped yields `MacVerifyFailed`
with the session unchanged, still in `Msg2Sent`. -/
theorem c1_bad_mac_rejected_state_unchanged :
    (∀ (cfg : Config) (s : Session) (msg3 msg3_size : Nat)
        (expiration_time : Int)
        (collateral_expiration_status quote_verification_result
          qve_nonce qve_report supplemental_data
          supplemental_data_size : Nat) (m : Msg3),
      ¬ (msg3 = 0 ∨ qve_nonce = 0 ∨ qve_report = 0) →
      ¬ (supplemental_data = 0 ∧ supplemental_data_size ≠ 0) →
      ¬ (supplemental_data ≠ 0 ∧ supplemental_data_size = 0) →
      ¬ (usizeMax - msg3 < msg3_size
         ∨ msg3_size < (cfg.sizeRaMsg3 + cfg.sizeQuote3) % 2 ^ 32) →
      (cfg.is_within_enclave msg3 msg3_size = true
       ∨ cfg.is_within_host msg3 msg3_size = true) →
      ¬ (¬ cfg.is_within_enclave qve_nonce cfg.sizeNonce = true
         ∨ ¬ cfg.is_within_enclave qve_report cfg.sizeReport = true) →
      ¬ (supplemental_data ≠ 0
         ∧ ¬ cfg.is_within_enclave supplemental_data
               supplemental_data_size = true) →
      from_slice cfg (readBytes cfg msg3 msg3_size) = .ok m →
      s.state = .msg2Sent →
      m.echoedPubKey = s.peerPubKey →
      m.mac ≠ cfg.hmac3 s.smk m.echoedPubKey m.secProps m.quote →
      (sgx_dcap_mra_proc_msg3 cfg s msg3 msg3_size expiration_time
          collateral_expiration_status quote_verification_result
          qve_nonce qve_report supplemental_data
          supplemental_data_size).status = .MacVerifyFailed
      ∧ (sgx_dcap_mra_proc_msg3 cfg s msg3 msg3_size expiration_time
          collateral_expiration_status quote_verification_result
          qve_nonce qve_report supplemental_data
          supplemental_data_size).session = s
      ∧ (sgx_dcap_mra_proc_msg3 cfg s msg3 msg3_size expiration_time
          collateral_expiration_status quote_verification_result
          qve_nonce qve_report supplemental_data
          supplemental_data_size).session.state = .msg2Sent)
    ∧
    (∀ (cfg : Config) (s : Session) (msg3 msg3_size : Nat)
        (expiration_time : Int)
        (collateral_expiration_status quote_verification_result
          qve_nonce qve_report supplemental_data
          supplemental_data_size : Nat) (m : Msg3) (i : Nat),
      ¬ (msg3 = 0 ∨ qve_nonce = 0 ∨ qve_report = 0) →
      ¬ (supplemental_data = 0 ∧ supplemental_data_size ≠ 0) →
      ¬ (supplemental_data ≠ 0 ∧ supplemental_data_size = 0) →
      ¬ (usizeMax - msg3 < msg3_size
         ∨ msg3_size < (cfg.sizeRaMsg3 + cfg.sizeQuote3) % 2 ^ 32) →
      (cfg.is_within_enclave msg3 msg3_size = true
       ∨ cfg.is_within_host msg3 msg3_size = true) →
      ¬ (¬ cfg.is_within_enclave qve_nonce cfg.sizeNonce = true
         ∨ ¬ cfg.is_within_enclave qve_report cfg.sizeReport = true) →
      ¬ (supplemental_data ≠ 0
         ∧ ¬ cfg.is_within_enclave supplemental_data
               supplemental_data_size = true) →
      from_slice cfg (readBytes cfg msg3 msg3_size) = .ok m →
      s.state = .msg2Sent →
      m.echoedPubKey = s.peerPubKey →
      i < 128 →
      m.mac = cfg.hmac3 s.smk m.echoedPubKey m.secProps m.quote ^^^ 2 ^ i →
      (sgx_dcap_mra_proc_msg3 cfg s msg3 msg3_size expiration_time
          collateral_expiration_status quote_verification_result
          qve_nonce qve_report supplemental_data
          supplemental_data_size).status = .MacVerifyFailed
      ∧ (sgx_dcap_mra_proc_msg3 cfg s msg3 msg3_size expiration_time
          collateral_expiration_status quote_verification_result
          qve_nonce qve_report supplemental_data
          supplemental_data_size).session = s
      ∧ (sgx_dcap_mra_proc_msg3 cfg s msg3 msg3_size expiration_time
          collateral_expiration_status quote_verification_result
          qve_nonce qve_report supplemental_data
          supplemental_data_size).session.state = .msg2Sent) := by
  constructor
  · intro cfg s msg3 msg3_size et cs qv qn qr sd sds m
      h1 h2 h3 h4 h5 h6 h7 hok hstate hecho hmac
    obtain ⟨ha, hb⟩ := proc_msg3_bad_mac cfg s msg3 msg3_size et cs qv qn qr
      sd sds m h1 h2 h3 h4 h5 h6 h7 hok hstate hecho hmac
    exact ⟨ha, hb, by rw [hb]; exact hstate⟩
  · intro cfg s msg3 msg3_size et cs qv qn qr sd sds m i
      h1 h2 h3 h4 h5 h6 h7 hok hstate hecho hi hflip
    have hmac : m.mac ≠ cfg.hmac3 s.smk m.echoedPubKey m.secProps m.quote := by
      rw [hflip]
      exact xor_two_pow_ne _ i
    obtain ⟨ha, hb⟩ := proc_msg3_bad_mac cfg s msg3 msg3_size et cs qv qn qr
      sd sds m h1 h2 h3 h4 h5 h6 h7 hok hstate hecho hmac
    exact ⟨ha, hb, by rw [hb]; exact hstate⟩

set_option maxRecDepth 100000 in
/-- Witness for the C1 theorem: a 340-byte message 3 (empty quote) with a
zero mac against an HMAC of 1 is rejected with `MacVerifyFailed` and the
session stays in `Msg2Sent`; the same message with bit 0 of the correct
(zero) mac flipped to 1 is likewise rejected. -/
theorem c1_bad_mac_rejected_state_unchanged_witness :
    ((sgx_dcap_mra_proc_msg3 macCfg msg2SentSession 1000 340 0 0 0 3 4 0
        0).status = .MacVerifyFailed
     ∧ (sgx_dcap_mra_proc_msg3 macCfg msg2SentSession 1000 340 0 0 0 3 4 0
        0).session = msg2SentSession
     ∧ (sgx_dcap_mra_proc_msg3 macCfg msg2SentSession 1000 340 0 0 0 3 4 0
        0).session.state = .msg2Sent)
    ∧
    ((sgx_dcap_mra_proc_msg3 flipCfg msg2SentSession 1000 340 0 0 0 3 4 0
        0).status = .MacVerifyFailed
     ∧ (sgx_dcap_mra_proc_msg3 flipCfg msg2SentSession 1000 340 0 0 0 3 4 0
        0).session = msg2SentSession
     ∧ (sgx_dcap_mra_proc_msg3 flipCfg msg2SentSession 1000 340 0 0 0 3 4 0
        0).session.state = .msg2Sent) :=
  ⟨c1_bad_mac_rejected_state_unchanged.1 macCfg msg2SentSession 1000 340 0 0
      0 3 4 0 0 ⟨0, 0, List.replicate 256 0, []⟩
      (by decide) (by decide) (by decide) (by decide) (by decide) (by decide)
      (by decide) (by rfl) (by rfl) (by rfl) (by decide),
   c1_bad_mac_rejected_state_unchanged.2 flipCfg msg2SentSession 1000 340 0 0
      0 3 4 0 0 ⟨1, 0, List.replicate 256 0, []⟩ 0
      (by decide) (by decide) (by decide) (by decide) (by decide) (by decide)
      (by decide) (by rfl) (by rfl) (by rfl) (by decide) (by decide)⟩

/-- Sample environment whose memory is all `0xff` bytes, so any embedded
`quote_size` field reads as `0xffffffff`, far above the configured maximum. -/
def oversizedQuoteCfg : Config := { baseCfg with mem := fun _ => 255 }

/-- Counterexample to C3 as stated: at a concrete `sgx_dcap_mra_get_msg2`
call whose buffer declares a quote length of `0xffffffff` (outside the
configured bounds 0..4096), the entry point returns `InvalidParameter` —
its own bounds check fires before `generate_msg2`'s `InvalidQuote` path —
not `InvalidQuote`. -/
theorem c3_invalid_quote_counterexample :
    check_quote_len oversizedQuoteCfg
        (readU32 oversizedQuoteCfg (2 + oversizedQuoteCfg.quoteSizeOff))
      = false
    ∧ (sgx_dcap_mra_get_msg2 oversizedQuoteCfg baseSession 1 2 100).status
        = .InvalidParameter
    ∧ (sgx_dcap_mra_get_msg2 oversizedQuoteCfg baseSession 1 2 100).status
        ≠ .InvalidQuote := by
  refine ⟨by decide, by decide, by decide⟩

/-- `from_slice` rejects with `SizeMismatch` whenever the declared quote
length fails the configured bounds check. -/
theorem from_slice_bad_quote_len (cfg : Config) (bytes : List Nat)
    (hlen : msg3HeaderSize ≤ bytes.length)
    (hbad : check_quote_len cfg (natOfBytes ((bytes.drop 336).take 4))
        = false) :
    from_slice cfg bytes = .error .SizeMismatch := by
  unfold from_slice
  rw [if_neg (Nat.not_lt.mpr hlen)]
  dsimp only
  rw [if_pos (by simp [hbad])]

/-- C3 (amended): a quote length outside the configured bounds makes
`sgx_dcap_mra_get_msg2` reject with `InvalidParameter` (the entry point's own
bounds check, which precedes `generate_msg2`'s `InvalidQuote` path) and makes
`sgx_dcap_mra_proc_msg3` reject with `SizeMismatch`; in both cases the
session state does not advance. -/
theorem c3_out_of_bounds_quote_rejected :
    (∀ (cfg : Config) (s : Session) (qe_report msg2 msg2_size : Nat),
      check_quote_len cfg (readU32 cfg (msg2 + cfg.quoteSizeOff)) = false →
      (sgx_dcap_mra_get_msg2 cfg s qe_report msg2 msg2_size).status
          = .InvalidParameter
      ∧ (sgx_dcap_mra_get_msg2 cfg s qe_report msg2 msg2_size).session = s)
    ∧
    (∀ (cfg : Config) (s : Session) (msg3 msg3_size : Nat)
        (expiration_time : Int)
        (collateral_expiration_status quote_verification_result
          qve_nonce qve_report supplemental_data
          supplemental_data_size : Nat),
      ¬ (msg3 = 0 ∨ qve_nonce = 0 ∨ qve_report = 0) →
      ¬ (supplemental_data = 0 ∧ supplemental_data_size ≠ 0) →
      ¬ (supplemental_data ≠ 0 ∧ supplemental_data_size = 0) →
      ¬ (usizeMax - msg3 < msg3_size
         ∨ msg3_size < (cfg.sizeRaMsg3 + cfg.sizeQuote3) % 2 ^ 32) →
      (cfg.is_within_enclave msg3 msg3_size = true
       ∨ cfg.is_within_host msg3 msg3_size = true) →
      ¬ (¬ cfg.is_within_enclave qve_nonce cfg.sizeNonce = true
         ∨ ¬ cfg.is_within_enclave qve_report cfg.sizeReport = true) →
      ¬ (supplemental_data ≠ 0
         ∧ ¬ cfg.is_within_enclave supplemental_data
               supplemental_data_size = true) →
      msg3HeaderSize ≤ msg3_size →
      check_quote_len cfg
          (natOfBytes (((readBytes cfg msg3 msg3_size).drop 336).take 4))
        = false →
      (sgx_dcap_mra_proc_msg3 cfg s msg3 msg3_size expiration_time
          collateral_expiration_status quote_verification_result
          qve_nonce qve_report supplemental_data
          supplemental_data_size).status = .SizeMismatch
      ∧ (sgx_dcap_mra_proc_msg3 cfg s msg3 msg3_size expiration_time
          collateral_expiration_status quote_verification_result
          qve_nonce qve_report supplemental_data
          supplemental_data_size).session = s) := by
  constructor
  · intro cfg s qe_report msg2 msg2_size hbad
    unfold sgx_dcap_mra_get_msg2 get_msg2_checked
    dsimp only
    split_ifs with h1 h2 h3 h4 h5 h6 <;> first
      | exact ⟨rfl, rfl⟩
      | simp_all
  · intro cfg s msg3 msg3_size et cs qv qn qr sd sds
      h1 h2 h3 h4 h5 h6 h7 hlen hbad
    rw [proc_msg3_reach cfg s msg3 msg3_size et cs qv qn qr sd sds
        h1 h2 h3 h4 h5 h6 h7]
    unfold proc_msg3_checked
    dsimp only
    rw [from_slice_bad_quote_len cfg _ (by simpa using hlen) hbad]
    exact ⟨rfl, rfl⟩

set_option maxRecDepth 100000 in
/-- Witness for the amended C3 theorem: the all-`0xff` environment declares
a quote length of `0xffffffff`, outside the bounds 0..4096; message-2
generation returns `InvalidParameter` and message-3 processing returns
`SizeMismatch`, both leaving the session unchanged. -/
theorem c3_out_of_bounds_quote_rejected_witness :
    ((sgx_dcap_mra_get_msg2 oversizedQuoteCfg baseSession 1 2 100).status
        = .InvalidParameter
     ∧ (sgx_dcap_mra_get_msg2 oversizedQuoteCfg baseSession 1 2 100).session
        = baseSession)
    ∧
    ((sgx_dcap_mra_proc_msg3 oversizedQuoteCfg msg2SentSession 1000 340 0 0 0
        3 4 0 0).status = .SizeMismatch
     ∧ (sgx_dcap_mra_proc_msg3 oversizedQuoteCfg msg2SentSession 1000 340 0 0
        0 3 4 0 0).session = msg2SentSession) :=
  ⟨c3_out_of_bounds_quote_rejected.1 oversizedQuoteCfg baseSession 1 2 100
      (by decide),
   c3_out_of_bounds_quote_rejected.2 oversizedQuoteCfg msg2SentSession 1000
      340 0 0 0 3 4 0 0 (by decide) (by decide) (by decide) (by decide)
      (by decide) (by decide) (by decide) (by decide) (by decide)⟩

set_option maxHeartbeats 1000000 in
/-- C4: every interior buffer of every entry point is checked to lie inside
the trusted region, with `InvalidParameter` otherwise — (1) the five buffers
of `proc_msg1`; (2) `qe_report` of `get_msg2`; (3) `qve_nonce`/`qve_report`
of `proc_msg3`; (4) the supplemental data of `proc_msg3` when non-null;
(5)–(6) the outputs of `get_peer_identity` and `get_keys` — while (7)–(8) the
msg2 and msg3 message buffers are rejected only when they lie in neither the
enclave nor the host region, and (9)–(10) are accepted when they lie in the
host region: `get_msg2` then completes with `Success` and `proc_msg3`
proceeds to read the buffer. -/
theorem c4_buffer_region_checks :
    (∀ (cfg : Config) (s : Session) (msg1 qe_target pub_key_b report
        nonce : Nat),
      (cfg.is_within_enclave msg1 cfg.sizeRaMsg1 = false
       ∨ cfg.is_within_enclave qe_target cfg.sizeTargetInfo = false
       ∨ cfg.is_within_enclave pub_key_b cfg.sizePubKey = false
       ∨ cfg.is_within_enclave report cfg.sizeReport = false
       ∨ cfg.is_within_enclave nonce cfg.sizeNonce = false) →
      (sgx_dcap_mra_proc_msg1 cfg s msg1 qe_target pub_key_b report
          nonce).status = .InvalidParameter
      ∧ (sgx_dcap_mra_proc_msg1 cfg s msg1 qe_target pub_key_b report
          nonce).written = none
      ∧ (sgx_dcap_mra_proc_msg1 cfg s msg1 qe_target pub_key_b report
          nonce).session = s)
    ∧
    (∀ (cfg : Config) (s : Session) (qe_report msg2 msg2_size : Nat),
      cfg.is_within_enclave qe_report cfg.sizeReport = false →
      (sgx_dcap_mra_get_msg2 cfg s qe_report msg2 msg2_size).status
          = .InvalidParameter
      ∧ (sgx_dcap_mra_get_msg2 cfg s qe_report msg2 msg2_size).written = none
      ∧ (sgx_dcap_mra_get_msg2 cfg s qe_report msg2 msg2_size).session = s)
    ∧
    (∀ (cfg : Config) (s : Session) (msg3 msg3_size : Nat)
        (expiration_time : Int)
        (collateral_expiration_status quote_verification_result
          qve_nonce qve_report supplemental_data
          supplemental_data_size : Nat),
      (cfg.is_within_enclave qve_nonce cfg.sizeNonce = false
       ∨ cfg.is_within_enclave qve_report cfg.sizeReport = false) →
      (sgx_dcap_mra_proc_msg3 cfg s msg3 msg3_size expiration_time
          collateral_expiration_status quote_verification_result
          qve_nonce qve_report supplemental_data
          supplemental_data_size).status = .InvalidParameter
      ∧ (sgx_dcap_mra_proc_msg3 cfg s msg3 msg3_size expiration_time
          collateral_expiration_status quote_verification_result
          qve_nonce qve_report supplemental_data
          supplemental_data_size).session = s)
    ∧
    (∀ (cfg : Config) (s : Session) (msg3 msg3_size : Nat)
        (expiration_time : Int)
        (collateral_expiration_status quote_verification_result
          qve_nonce qve_report supplemental_data
          supplemental_data_size : Nat),
      supplemental_data ≠ 0 →
      cfg.is_within_enclave supplemental_data supplemental_data_size
        = false →
      (sgx_dcap_mra_proc_msg3 cfg s msg3 msg3_size expiration_time
          collateral_expiration_status quote_verification_result
          qve_nonce qve_report supplemental_data
          supplemental_data_size).status = .InvalidParameter
      ∧ (sgx_dcap_mra_proc_msg3 cfg s msg3 msg3_size expiration_time
          collateral_expiration_status quote_verification_result
          qve_nonce qve_report supplemental_data
          supplemental_data_size).session = s)
    ∧
    (∀ (cfg : Config) (s : Session) (qv id : Nat),
      (cfg.is_within_enclave qv cfg.sizeQvResult = false
       ∨ cfg.is_within_enclave id cfg.sizeIdentity = false) →
      (sgx_mra_responder_get_peer_identity cfg s qv id).status
          = .InvalidParameter
      ∧ (sgx_mra_responder_get_peer_identity cfg s qv id).written = none
      ∧ (sgx_mra_responder_get_peer_identity cfg s qv id).session = s)
    ∧
    (∀ (cfg : Config) (s : Session) (kt : RaKeyType) (key : Nat),
      cfg.is_within_enclave key cfg.sizeKey = false →
      (sgx_mra_responder_get_keys cfg s kt key).status = .InvalidParameter
      ∧ (sgx_mra_responder_get_keys cfg s kt key).written = none
      ∧ (sgx_mra_responder_get_keys cfg s kt key).session = s)
    ∧
    (∀ (cfg : Config) (s : Session) (qe_report msg2 msg2_size : Nat),
      cfg.is_within_enclave msg2 msg2_size = false →
      cfg.is_within_host msg2 msg2_size = false →
      (sgx_dcap_mra_get_msg2 cfg s qe_report msg2 msg2_size).status
          = .InvalidParameter
      ∧ (sgx_dcap_mra_get_msg2 cfg s qe_report msg2 msg2_size).session = s)
    ∧
    (∀ (cfg : Config) (s : Session) (msg3 msg3_size : Nat)
        (expiration_time : Int)
        (collateral_expiration_status quote_verification_result
          qve_nonce qve_report supplemental_data
          supplemental_data_size : Nat),
      cfg.is_within_enclave msg3 msg3_size = false →
      cfg.is_within_host msg3 msg3_size = false →
      (sgx_dcap_mra_proc_msg3 cfg s msg3 msg3_size expiration_time
          collateral_expiration_status quote_verification_result
          qve_nonce qve_report supplemental_data
          supplemental_data_size).status = .InvalidParameter
      ∧ (sgx_dcap_mra_proc_msg3 cfg s msg3 msg3_size expiration_time
          collateral_expiration_status quote_verification_result
          qve_nonce qve_report supplemental_data
          supplemental_data_size).session = s)
    ∧
    (∀ (cfg : Config) (s : Session) (qe_report msg2 msg2_size : Nat),
      qe_report ≠ 0 → msg2 ≠ 0 →
      ¬ (usizeMax - msg2 < msg2_size) →
      ¬ (msg2_size < (cfg.sizeMRaMsg2 + cfg.sizeQuote3) % 2 ^ 32) →
      cfg.is_within_host msg2 msg2_size = true →
      cfg.is_within_enclave qe_report cfg.sizeReport = true →
      check_quote_len cfg (readU32 cfg (msg2 + cfg.quoteSizeOff)) = true →
      msg2_size = (cfg.sizeMRaMsg2 + readU32 cfg (msg2 + cfg.quoteSizeOff))
          % 2 ^ 32 →
      s.state = .msg1Processed →
      cfg.reportMatches s (cfg.reportAt qe_report) = true →
      (sgx_dcap_mra_get_msg2 cfg s qe_report msg2 msg2_size).status
        = .Success)
    ∧
    (∀ (cfg : Config) (s : Session) (msg3 msg3_size : Nat)
        (expiration_time : Int)
        (collateral_expiration_status quote_verification_result
          qve_nonce qve_report supplemental_data
          supplemental_data_size : Nat),
      ¬ (msg3 = 0 ∨ qve_nonce = 0 ∨ qve_report = 0) →
      ¬ (supplemental_data = 0 ∧ supplemental_data_size ≠ 0) →
      ¬ (supplemental_data ≠ 0 ∧ supplemental_data_size = 0) →
      ¬ (usizeMax - msg3 < msg3_size
         ∨ msg3_size < (cfg.sizeRaMsg3 + cfg.sizeQuote3) % 2 ^ 32) →
      cfg.is_within_host msg3 msg3_size = true →
      ¬ (¬ cfg.is_within_enclave qve_nonce cfg.sizeNonce = true
         ∨ ¬ cfg.is_within_enclave qve_report cfg.sizeReport = true) →
      ¬ (supplemental_data ≠ 0
         ∧ ¬ cfg.is_within_enclave supplemental_data
               supplemental_data_size = true) →
      ∃ rest,
        (sgx_dcap_mra_proc_msg3 cfg s msg3 msg3_size expiration_time
            collateral_expiration_status quote_verification_result
            qve_nonce qve_report supplemental_data
            supplemental_data_size).trace = Event.readBuffer msg3 :: rest) := by
  refine ⟨?_, ?_, ?_, ?_, ?_, ?_, ?_, ?_, ?_, ?_⟩
  · intro cfg s msg1 qe_target pub_key_b report nonce hreg
    have hc : ¬ cfg.is_within_enclave msg1 cfg.sizeRaMsg1 = true
        ∨ ¬ cfg.is_within_enclave qe_target cfg.sizeTargetInfo = true
        ∨ ¬ cfg.is_within_enclave pub_key_b cfg.sizePubKey = true
        ∨ ¬ cfg.is_within_enclave report cfg.sizeReport = true
        ∨ ¬ cfg.is_within_enclave nonce cfg.sizeNonce = true := by
      rcases hreg with h | h | h | h | h
      · exact Or.inl (by simp [h])
      · exact Or.inr (Or.inl (by simp [h]))
      · exact Or.inr (Or.inr (Or.inl (by simp [h])))
      · exact Or.inr (Or.inr (Or.inr (Or.inl (by simp [h]))))
      · exact Or.inr (Or.inr (Or.inr (Or.inr (by simp [h]))))
    unfold sgx_dcap_mra_proc_msg1
    split_ifs with h1 h2 <;> first
      | exact ⟨rfl, rfl, rfl⟩
      | exact absurd hc (by assumption)
  · intro cfg s qe_report msg2 msg2_size hreg
    unfold sgx_dcap_mra_get_msg2 get_msg2_checked
    dsimp only
    split_ifs with h1 h2 h3 h4 h5 h6 <;> first
      | exact ⟨rfl, rfl, rfl⟩
      | exact absurd h4 (by simp [hreg])
  · intro cfg s msg3 msg3_size et cs qv qn qr sd sds hreg
    have hc : ¬ cfg.is_within_enclave qn cfg.sizeNonce = true
        ∨ ¬ cfg.is_within_enclave qr cfg.sizeReport = true := by
      rcases hreg with h | h
      · exact Or.inl (by simp [h])
      · exact Or.inr (by simp [h])
    unfold sgx_dcap_mra_proc_msg3 proc_msg3_checked
    dsimp only
    split_ifs with h1 h2 h3 h4 h5 h6 h7 <;> first
      | exact ⟨rfl, rfl⟩
      | exact absurd hc (by assumption)
  · intro cfg s msg3 msg3_size et cs qv qn qr sd sds hsd hreg
    unfold sgx_dcap_mra_proc_msg3 proc_msg3_checked
    dsimp only
    split_ifs with h1 h2 h3 h4 h5 h6 h7 <;> first
      | exact ⟨rfl, rfl⟩
      | exact absurd ⟨hsd, by simp [hreg]⟩ h7
  · intro cfg s qv id hreg
    unfold sgx_mra_responder_get_peer_identity
    split_ifs with h1 h2 h3 <;> first
      | exact ⟨rfl, rfl, rfl⟩
      | (rcases hreg with h | h
         · exact absurd h2 (by simp [h])
         · exact absurd h3 (by simp [h]))
  · intro cfg s kt key hreg
    unfold sgx_mra_responder_get_keys
    split_ifs with h1 h2 <;> first
      | exact ⟨rfl, rfl, rfl⟩
      | exact absurd h2 (by simp [hreg])
  · intro cfg s qe_report msg2 msg2_size he hh
    unfold sgx_dcap_mra_get_msg2 get_msg2_checked
    dsimp only
    split_ifs with h1 h2 h3 h4 h5 h6 <;> first
      | exact ⟨rfl, rfl⟩
      | exact absurd h3 (by simp [he, hh])
  · intro cfg s msg3 msg3_size et cs qv qn qr sd sds he hh
    unfold sgx_dcap_mra_proc_msg3 proc_msg3_checked
    dsimp only
    split_ifs with h1 h2 h3 h4 h5 h6 h7 <;> first
      | exact ⟨rfl, rfl⟩
      | exact absurd h5 (by simp [he, hh])
  · intro cfg s qe_report msg2 msg2_size hq hm hov hmin hhost hqe hlen heq
      hstate hrm
    rw [get_msg2_reach cfg s qe_report msg2 msg2_size
        (not_or.mpr ⟨hq, hm⟩) (not_or.mpr ⟨hov, hmin⟩) (Or.inr hhost) hqe]
    unfold get_msg2_checked
    dsimp only
    rw [if_neg (not_not_intro hlen), if_neg (not_not_intro heq)]
    unfold generate_msg2
    rw [if_neg (not_not_intro hstate), if_neg (by simp [hrm]),
        if_neg (not_not_intro (by simpa using hlen))]
  · intro cfg s msg3 msg3_size et cs qv qn qr sd sds
      h1 h2 h3 h4 hhost h6 h7
    rw [proc_msg3_reach cfg s msg3 msg3_size et cs qv qn qr sd sds
        h1 h2 h3 h4 (Or.inr hhost) h6 h7]
    unfold proc_msg3_checked
    dsimp only
    rcases hfs : from_slice cfg (readBytes cfg msg3 msg3_size) with e | m
    · exact ⟨[], rfl⟩
    · exact ⟨[.innerCall (if sd ≠ 0 then
          some (readBytes cfg sd sds) else none).isSome], rfl⟩

/-- Sample environment in which no buffer lies in the enclave or host
region. -/
def outsideCfg : Config :=
  { baseCfg with is_within_enclave := fun _ _ => false }

/-- Sample environment in which address 2 lies in the host region and every
other address lies in the enclave. -/
def hostBufCfg : Config :=
  { baseCfg with
      is_within_enclave := fun p _ => decide (p ≠ 2)
      is_within_host := fun p _ => decide (p = 2) }

/-- A session that has processed message 1. -/
def msg1DoneSession : Session := { baseSession with state := .msg1Processed }

/-- Witness for the C4 theorem: each of its ten conjuncts applied at a
concrete call. -/
theorem c4_buffer_region_checks_witness :
    ((sgx_dcap_mra_proc_msg1 outsideCfg baseSession 1 2 3 4 5).status
        = .InvalidParameter
     ∧ (sgx_dcap_mra_proc_msg1 outsideCfg baseSession 1 2 3 4 5).written
        = none
     ∧ (sgx_dcap_mra_proc_msg1 outsideCfg baseSession 1 2 3 4 5).session
        = baseSession)
    ∧ ((sgx_dcap_mra_get_msg2 outsideCfg baseSession 1 2 100).status
        = .InvalidParameter
       ∧ (sgx_dcap_mra_get_msg2 outsideCfg baseSession 1 2 100).written
        = none
       ∧ (sgx_dcap_mra_get_msg2 outsideCfg baseSession 1 2 100).session
        = baseSession)
    ∧ ((sgx_dcap_mra_proc_msg3 outsideCfg baseSession 1000 340 0 0 0 3 4 0
          0).status = .InvalidParameter
       ∧ (sgx_dcap_mra_proc_msg3 outsideCfg baseSession 1000 340 0 0 0 3 4 0
          0).session = baseSession)
    ∧ ((sgx_dcap_mra_proc_msg3 outsideCfg baseSession 1000 340 0 0 0 3 4 5
          7).status = .InvalidParameter
       ∧ (sgx_dcap_mra_proc_msg3 outsideCfg baseSession 1000 340 0 0 0 3 4 5
          7).session = baseSession)
    ∧ ((sgx_mra_responder_get_peer_identity outsideCfg baseSession 1
          2).status = .InvalidParameter
       ∧ (sgx_mra_responder_get_peer_identity outsideCfg baseSession 1
          2).written = none
       ∧ (sgx_mra_responder_get_peer_identity outsideCfg baseSession 1
          2).session = baseSession)
    ∧ ((sgx_mra_responder_get_keys outsideCfg baseSession .sk 3).status
        = .InvalidParameter
       ∧ (sgx_mra_responder_get_keys outsideCfg baseSession .sk 3).written
        = none
       ∧ (sgx_mra_responder_get_keys outsideCfg baseSession .sk 3).session
        = baseSession)
    ∧ ((sgx_dcap_mra_get_msg2 outsideCfg baseSession 1 2 100).status
        = .InvalidParameter
       ∧ (sgx_dcap_mra_get_msg2 outsideCfg baseSession 1 2 100).session
        = baseSession)
    ∧ ((sgx_dcap_mra_proc_msg3 outsideCfg baseSession 1000 340 0 0 0 3 4 0
          0).status = .InvalidParameter
       ∧ (sgx_dcap_mra_proc_msg3 outsideCfg baseSession 1000 340 0 0 0 3 4 0
          0).session = baseSession)
    ∧ (sgx_dcap_mra_get_msg2 hostBufCfg msg1DoneSession 1 2 86).status
        = .Success
    ∧ (∃ rest,
        (sgx_dcap_mra_proc_msg3 hostBufCfg msg2SentSession 2 340 0 0 0 3 4 0
          0).trace = Event.readBuffer 2 :: rest) :=
  ⟨c4_buffer_region_checks.1 outsideCfg baseSession 1 2 3 4 5
      (Or.inl (by decide)),
   c4_buffer_region_checks.2.1 outsideCfg baseSession 1 2 100 (by decide),
   c4_buffer_region_checks.2.2.1 outsideCfg baseSession 1000 340 0 0 0 3 4 0
      0 (Or.inl (by decide)),
   c4_buffer_region_checks.2.2.2.1 outsideCfg baseSession 1000 340 0 0 0 3 4
      5 7 (by decide) (by decide),
   c4_buffer_region_checks.2.2.2.2.1 outsideCfg baseSession 1 2
      (Or.inl (by decide)),
   c4_buffer_region_checks.2.2.2.2.2.1 outsideCfg baseSession .sk 3
      (by decide),
   c4_buffer_region_checks.2.2.2.2.2.2.1 outsideCfg baseSession 1 2 100
      (by decide) (by decide),
   c4_buffer_region_checks.2.2.2.2.2.2.2.1 outsideCfg baseSession 1000 340 0
      0 0 3 4 0 0 (by decide) (by decide),
   c4_buffer_region_checks.2.2.2.2.2.2.2.2.1 hostBufCfg msg1DoneSession 1 2
      86 (by decide) (by decide) (by decide) (by decide) (by decide)
      (by decide) (by decide) (by decide) (by decide) (by decide),
   c4_buffer_region_checks.2.2.2.2.2.2.2.2.2 hostBufCfg msg2SentSession 2
      340 0 0 0 3 4 0 0 (by decide) (by decide) (by decide) (by decide)
      (by decide) (by decide) (by decide)⟩

/-- C5: in `sgx_dcap_mra_get_msg2`, whenever the quote slice is built from
the untrusted `quote_size` field (the `quoteSliced` event occurs), the field
has passed the configured bounds check and the total-size equality check, and
both validation events occur strictly before the slice event in the trace. -/
theorem c5_quote_size_validated_before_slice (cfg : Config) (s : Session)
    (qe_report msg2 msg2_size : Nat)
    (hmem : Event.quoteSliced
      ∈ (sgx_dcap_mra_get_msg2 cfg s qe_report msg2 msg2_size).trace) :
    check_quote_len cfg (readU32 cfg (msg2 + cfg.quoteSizeOff)) = true
    ∧ msg2_size
        = (cfg.sizeMRaMsg2 + readU32 cfg (msg2 + cfg.quoteSizeOff)) % 2 ^ 32
    ∧ ∃ pre post,
        (sgx_dcap_mra_get_msg2 cfg s qe_report msg2 msg2_size).trace
          = pre ++ Event.quoteSliced :: post
        ∧ Event.quoteLenChecked ∈ pre ∧ Event.sizeEqChecked ∈ pre := by
  unfold sgx_dcap_mra_get_msg2 get_msg2_checked at hmem ⊢
  dsimp only at hmem ⊢
  split_ifs at hmem ⊢ with h1 h2 h3 h4 h5 h6 <;> try simp at hmem
  simp only [ne_eq, not_not] at h6
  refine ⟨h5, h6, ?_⟩
  rcases hgen : generate_msg2 cfg s (cfg.reportAt qe_report)
      (readBytes cfg (msg2 + cfg.quoteOff)
        (readU32 cfg (msg2 + cfg.quoteSizeOff))) with e | pair <;>
    exact ⟨[Event.readBuffer (msg2 + cfg.quoteSizeOff),
            Event.quoteLenChecked, Event.sizeEqChecked], [],
           rfl, by simp, by simp⟩

/-- Witness for the C5 theorem: a call that reaches the quote slice; its
trace validates the `quote_size` field before slicing. -/
theorem c5_quote_size_validated_before_slice_witness :
    check_quote_len baseCfg (readU32 baseCfg (2 + baseCfg.quoteSizeOff))
      = true
    ∧ 86 = (baseCfg.sizeMRaMsg2
            + readU32 baseCfg (2 + baseCfg.quoteSizeOff)) % 2 ^ 32
    ∧ ∃ pre post,
        (sgx_dcap_mra_get_msg2 baseCfg baseSession 1 2 86).trace
          = pre ++ Event.quoteSliced :: post
        ∧ Event.quoteLenChecked ∈ pre ∧ Event.sizeEqChecked ∈ pre :=
  c5_quote_size_validated_before_slice baseCfg baseSession 1 2 86 (by decide)

/-- C6: in both `sgx_dcap_mra_get_msg2` and `sgx_dcap_mra_proc_msg3`, a
caller-supplied size whose addition to the buffer base address would overflow
the address space, or which is below the fixed minimum (the message header
size plus the minimum quote structure size), is rejected with
`InvalidParameter` before any buffer byte is read (empty event trace),
with nothing written and the session unchanged. -/
theorem c6_overflow_and_min_size_rejected :
    (∀ (cfg : Config) (s : Session) (qe_report msg2 msg2_size : Nat),
      msg2 ≤ usizeMax →
      cfg.sizeMRaMsg2 + cfg.sizeQuote3 < 2 ^ 32 →
      (usizeMax < msg2 + msg2_size
       ∨ msg2_size < cfg.sizeMRaMsg2 + cfg.sizeQuote3) →
      (sgx_dcap_mra_get_msg2 cfg s qe_report msg2 msg2_size).status
          = .InvalidParameter
      ∧ (sgx_dcap_mra_get_msg2 cfg s qe_report msg2 msg2_size).written
          = none
      ∧ (sgx_dcap_mra_get_msg2 cfg s qe_report msg2 msg2_size).session = s
      ∧ (sgx_dcap_mra_get_msg2 cfg s qe_report msg2 msg2_size).trace = [])
    ∧
    (∀ (cfg : Config) (s : Session) (msg3 msg3_size : Nat)
        (expiration_time : Int)
        (collateral_expiration_status quote_verification_result
          qve_nonce qve_report supplemental_data
          supplemental_data_size : Nat),
      msg3 ≤ usizeMax →
      cfg.sizeRaMsg3 + cfg.sizeQuote3 < 2 ^ 32 →
      (usizeMax < msg3 + msg3_size
       ∨ msg3_size < cfg.sizeRaMsg3 + cfg.sizeQuote3) →
      (sgx_dcap_mra_proc_msg3 cfg s msg3 msg3_size expiration_time
          collateral_expiration_status quote_verification_result
          qve_nonce qve_report supplemental_data
          supplemental_data_size).status = .InvalidParameter
      ∧ (sgx_dcap_mra_proc_msg3 cfg s msg3 msg3_size expiration_time
          collateral_expiration_status quote_verification_result
          qve_nonce qve_report supplemental_data
          supplemental_data_size).session = s
      ∧ (sgx_dcap_mra_proc_msg3 cfg s msg3 msg3_size expiration_time
          collateral_expiration_status quote_verification_result
          qve_nonce qve_report supplemental_data
          supplemental_data_size).trace = []) := by
  constructor
  · intro cfg s qe_report msg2 msg2_size hle hsz hbad
    have hguard : usizeMax - msg2 < msg2_size
        ∨ msg2_size < (cfg.sizeMRaMsg2 + cfg.sizeQuote3) % 2 ^ 32 := by
      rw [Nat.mod_eq_of_lt hsz]
      rcases hbad with h | h
      · left; omega
      · right; exact h
    unfold sgx_dcap_mra_get_msg2 get_msg2_checked
    dsimp only
    split_ifs with h1 h2 h3 h4 h5 h6 <;> first
      | exact ⟨rfl, rfl, rfl, rfl⟩
      | exact absurd hguard (by assumption)
  · intro cfg s msg3 msg3_size et cs qv qn qr sd sds hle hsz hbad
    have hguard : usizeMax - msg3 < msg3_size
        ∨ msg3_size < (cfg.sizeRaMsg3 + cfg.sizeQuote3) % 2 ^ 32 := by
      rw [Nat.mod_eq_of_lt hsz]
      rcases hbad with h | h
      · left; omega
      · right; exact h
    unfold sgx_dcap_mra_proc_msg3 proc_msg3_checked
    dsimp only
    split_ifs with h1 h2 h3 h4 h5 h6 h7 <;> first
      | exact ⟨rfl, rfl, rfl⟩
      | exact absurd hguard (by assumption)

/-- Witness for the C6 theorem: a message-2 buffer of total size 5 (below
header 86) and a message-3 buffer at the top of the address space whose size
would wrap are both rejected with `InvalidParameter` and an empty trace. -/
theorem c6_overflow_and_min_size_rejected_witness :
    ((sgx_dcap_mra_get_msg2 baseCfg baseSession 1 2 5).status
        = .InvalidParameter
     ∧ (sgx_dcap_mra_get_msg2 baseCfg baseSession 1 2 5).written = none
     ∧ (sgx_dcap_mra_get_msg2 baseCfg baseSession 1 2 5).session
        = baseSession
     ∧ (sgx_dcap_mra_get_msg2 baseCfg baseSession 1 2 5).trace = [])
    ∧
    ((sgx_dcap_mra_proc_msg3 baseCfg baseSession usizeMax 400 0 0 0 3 4 0
        0).status = .InvalidParameter
     ∧ (sgx_dcap_mra_proc_msg3 baseCfg baseSession usizeMax 400 0 0 0 3 4 0
        0).session = baseSession
     ∧ (sgx_dcap_mra_proc_msg3 baseCfg baseSession usizeMax 400 0 0 0 3 4 0
        0).trace = []) :=
  ⟨c6_overflow_and_min_size_rejected.1 baseCfg baseSession 1 2 5
      (by decide) (by decide) (Or.inr (by decide)),
   c6_overflow_and_min_size_rejected.2 baseCfg baseSession usizeMax 400 0 0
      0 3 4 0 0 (by decide) (by decide) (Or.inl (by decide))⟩

/-- C7: `sgx_mra_responder_get_keys` called with a valid output buffer while
the session state is earlier than `Msg3Verified` fails with `InvalidState`
for every key type, writing no key material and leaving the session
unchanged. -/
theorem c7_get_keys_before_verified (cfg : Config) (s : Session)
    (kt : RaKeyType) (key : Nat)
    (hk : ¬ key = 0)
    (he : cfg.is_within_enclave key cfg.sizeKey = true)
    (hs : s.state.idx < SessionState.msg3Verified.idx) :
    (sgx_mra_responder_get_keys cfg s kt key).status = .InvalidState
    ∧ (sgx_mra_responder_get_keys cfg s kt key).written = none
    ∧ (sgx_mra_responder_get_keys cfg s kt key).session = s := by
  unfold sgx_mra_responder_get_keys
  rw [if_neg hk, if_neg (not_not_intro he)]
  unfold get_keys
  rw [if_pos hs]
  exact ⟨rfl, rfl, rfl⟩

/-- Witness for the C7 theorem: in state `Created`, all three key types are
refused with `InvalidState` and nothing is written. -/
theorem c7_get_keys_before_verified_witness :
    ((sgx_mra_responder_get_keys baseCfg baseSession .sk 3).status
        = .InvalidState
     ∧ (sgx_mra_responder_get_keys baseCfg baseSession .sk 3).written = none
     ∧ (sgx_mra_responder_get_keys baseCfg baseSession .sk 3).session
        = baseSession)
    ∧ ((sgx_mra_responder_get_keys baseCfg baseSession .mk 3).status
        = .InvalidState
       ∧ (sgx_mra_responder_get_keys baseCfg baseSession .mk 3).written
        = none
       ∧ (sgx_mra_responder_get_keys baseCfg baseSession .mk 3).session
        = baseSession)
    ∧ ((sgx_mra_responder_get_keys baseCfg baseSession .vk 3).status
        = .InvalidState
       ∧ (sgx_mra_responder_get_keys baseCfg baseSession .vk 3).written
        = none
       ∧ (sgx_mra_responder_get_keys baseCfg baseSession .vk 3).session
        = baseSession) :=
  ⟨c7_get_keys_before_verified baseCfg baseSession .sk 3 (by decide)
      (by decide) (by decide),
   c7_get_keys_before_verified baseCfg baseSession .mk 3 (by decide)
      (by decide) (by decide),
   c7_get_keys_before_verified baseCfg baseSession .vk 3 (by decide)
      (by decide) (by decide)⟩

/-- `sgx_mra_responder_get_peer_identity` never mutates the session. -/
theorem get_peer_identity_session_eq (cfg : Config) (s : Session)
    (qv id : Nat) :
    (sgx_mra_responder_get_peer_identity cfg s qv id).session = s := by
  unfold sgx_mra_responder_get_peer_identity
  split_ifs with h1 h2 h3 <;> try rfl
  rcases hg : get_peer_identity s with e | out <;> rfl

/-- C8: once the session is in `Msg3Verified`, `sgx_mra_responder_get_peer_identity`
does not change the session, and a second call on the resulting session
returns exactly the same result (same status, same verdict and identity). -/
theorem c8_get_peer_identity_idempotent (cfg : Config) (s : Session)
    (qv id : Nat) (hs : s.state = .msg3Verified) :
    (sgx_mra_responder_get_peer_identity cfg s qv id).session = s
    ∧ sgx_mra_responder_get_peer_identity cfg
        (sgx_mra_responder_get_peer_identity cfg s qv id).session qv id
      = sgx_mra_responder_get_peer_identity cfg s qv id := by
  refine ⟨get_peer_identity_session_eq cfg s qv id, ?_⟩
  rw [get_peer_identity_session_eq cfg s qv id]

/-- A session with a verified peer. -/
def verifiedSession : Session := { baseSession with state := .msg3Verified }

/-- Witness for the C8 theorem: two successive identity reads on a verified
session coincide and leave the session unchanged. -/
theorem c8_get_peer_identity_idempotent_witness :
    (sgx_mra_responder_get_peer_identity baseCfg verifiedSession 1
        2).session = verifiedSession
    ∧ sgx_mra_responder_get_peer_identity baseCfg
        (sgx_mra_responder_get_peer_identity baseCfg verifiedSession 1
          2).session 1 2
      = sgx_mra_responder_get_peer_identity baseCfg verifiedSession 1 2 :=
  c8_get_peer_identity_idempotent baseCfg verifiedSession 1 2 (by decide)

set_option maxHeartbeats 1000000 in
/-- C9: `sgx_dcap_mra_proc_msg3` rejects with `InvalidParameter` a null
supplemental pointer with a nonzero size and a non-null pointer with a zero
size; and whenever the inner `process_msg3` is invoked, supplemental data is
passed as present exactly when the pointer is non-null. -/
theorem c9_supplemental_pairing :
    (∀ (cfg : Config) (s : Session) (msg3 msg3_size : Nat)
        (expiration_time : Int)
        (collateral_expiration_status quote_verification_result
          qve_nonce qve_report supplemental_data_size : Nat),
      supplemental_data_size ≠ 0 →
      (sgx_dcap_mra_proc_msg3 cfg s msg3 msg3_size expiration_time
          collateral_expiration_status quote_verification_result
          qve_nonce qve_report 0 supplemental_data_size).status
        = .InvalidParameter)
    ∧
    (∀ (cfg : Config) (s : Session) (msg3 msg3_size : Nat)
        (expiration_time : Int)
        (collateral_expiration_status quote_verification_result
          qve_nonce qve_report supplemental_data : Nat),
      supplemental_data ≠ 0 →
      (sgx_dcap_mra_proc_msg3 cfg s msg3 msg3_size expiration_time
          collateral_expiration_status quote_verification_result
          qve_nonce qve_report supplemental_data 0).status
        = .InvalidParameter)
    ∧
    (∀ (cfg : Config) (s : Session) (msg3 msg3_size : Nat)
        (expiration_time : Int)
        (collateral_expiration_status quote_verification_result
          qve_nonce qve_report supplemental_data
          supplemental_data_size : Nat) (b : Bool),
      Event.innerCall b
        ∈ (sgx_dcap_mra_proc_msg3 cfg s msg3 msg3_size expiration_time
            collateral_expiration_status quote_verification_result
            qve_nonce qve_report supplemental_data
            supplemental_data_size).trace →
      (b = true ↔ supplemental_data ≠ 0)) := by
  refine ⟨?_, ?_, ?_⟩
  · intro cfg s msg3 msg3_size et cs qv qn qr sds hsds
    unfold sgx_dcap_mra_proc_msg3 proc_msg3_checked
    dsimp only
    split_ifs with h1 h2 h3 h4 h5 h6 h7 <;> first
      | rfl
      | exact absurd ⟨rfl, hsds⟩ h2
  · intro cfg s msg3 msg3_size et cs qv qn qr sd hsd
    unfold sgx_dcap_mra_proc_msg3 proc_msg3_checked
    dsimp only
    split_ifs with h1 h2 h3 h4 h5 h6 h7 <;> first
      | rfl
      | exact absurd ⟨hsd, rfl⟩ h3
  · intro cfg s msg3 msg3_size et cs qv qn qr sd sds b hmem
    unfold sgx_dcap_mra_proc_msg3 proc_msg3_checked at hmem
    dsimp only at hmem
    split_ifs at hmem with h1 h2 h3 h4 h5 h6 h7 h8 <;> try simp at hmem
    all_goals
      rcases hfs : from_slice cfg (readBytes cfg msg3 msg3_size)
          with e | m <;>
        (try rw [hfs] at hmem) <;> simp at hmem <;> simp [hmem, h8]

set_option maxRecDepth 100000 in
/-- Witness for the C9 theorem: a null supplemental pointer with size 9 and a
pointer 5 with size 0 are both rejected; on complete calls the inner
operation receives supplemental data as absent for a null pointer and as
present for pointer 5. -/
theorem c9_supplemental_pairing_witness :
    (sgx_dcap_mra_proc_msg3 baseCfg baseSession 1000 340 0 0 0 3 4 0
        9).status = .InvalidParameter
    ∧ (sgx_dcap_mra_proc_msg3 baseCfg baseSession 1000 340 0 0 0 3 4 5
        0).status = .InvalidParameter
    ∧ (false = true ↔ (0 : Nat) ≠ 0)
    ∧ (true = true ↔ (5 : Nat) ≠ 0) :=
  ⟨c9_supplemental_pairing.1 baseCfg baseSession 1000 340 0 0 0 3 4 9
      (by decide),
   c9_supplemental_pairing.2.1 baseCfg baseSession 1000 340 0 0 0 3 4 5
      (by decide),
   c9_supplemental_pairing.2.2 baseCfg msg2SentSession 1000 340 0 0 0 3 4 0
      0 false (by decide),
   c9_supplemental_pairing.2.2 baseCfg msg2SentSession 1000 340 0 0 0 3 4 5
      7 true (by decide)⟩

/-- C10: whenever an entry point with output parameters returns a status
other than `Success`, none of the caller-supplied output locations has been
written — for `init` (context handle), `proc_msg1` (public key, report,
nonce), `get_msg2` (msg2 header fields), `get_peer_identity` (verdict and
identity) and `get_keys` (key). -/
theorem c10_no_output_on_failure :
    (∀ (cfg : Config) (context : Nat),
      (sgx_mra_responder_init cfg context).1 ≠ .Success →
      (sgx_mra_responder_init cfg context).2 = none)
    ∧
    (∀ (cfg : Config) (s : Session) (msg1 qe_target pub_key_b report
        nonce : Nat),
      (sgx_dcap_mra_proc_msg1 cfg s msg1 qe_target pub_key_b report
          nonce).status ≠ .Success →
      (sgx_dcap_mra_proc_msg1 cfg s msg1 qe_target pub_key_b report
          nonce).written = none)
    ∧
    (∀ (cfg : Config) (s : Session) (qe_report msg2 msg2_size : Nat),
      (sgx_dcap_mra_get_msg2 cfg s qe_report msg2 msg2_size).status
        ≠ .Success →
      (sgx_dcap_mra_get_msg2 cfg s qe_report msg2 msg2_size).written = none)
    ∧
    (∀ (cfg : Config) (s : Session) (qv id : Nat),
      (sgx_mra_responder_get_peer_identity cfg s qv id).status ≠ .Success →
      (sgx_mra_responder_get_peer_identity cfg s qv id).written = none)
    ∧
    (∀ (cfg : Config) (s : Session) (kt : RaKeyType) (key : Nat),
      (sgx_mra_responder_get_keys cfg s kt key).status ≠ .Success →
      (sgx_mra_responder_get_keys cfg s kt key).written = none) := by
  refine ⟨?_, ?_, ?_, ?_, ?_⟩
  · intro cfg context h
    unfold sgx_mra_responder_init at h ⊢
    split_ifs at h ⊢ with h1
    · rfl
    · rcases hg : cfg.newResponder with e | r
      · rfl
      · try rw [hg] at h
        exact absurd rfl h
  · intro cfg s msg1 qe_target pub_key_b report nonce h
    unfold sgx_dcap_mra_proc_msg1 at h ⊢
    split_ifs at h ⊢ with h1 h2
    · rfl
    · rfl
    · rcases hg : process_msg1 cfg s (cfg.pubKeyAt msg1)
          (cfg.targetAt qe_target) with e | out
      · rfl
      · try rw [hg] at h
        exact absurd rfl h
  · intro cfg s qe_report msg2 msg2_size h
    unfold sgx_dcap_mra_get_msg2 get_msg2_checked at h ⊢
    dsimp only at h ⊢
    split_ifs at h ⊢ with h1 h2 h3 h4 h5 h6 <;> try rfl
    rcases hg : generate_msg2 cfg s (cfg.reportAt qe_report)
        (readBytes cfg (msg2 + cfg.quoteOff)
          (readU32 cfg (msg2 + cfg.quoteSizeOff))) with e | out
    · rfl
    · try rw [hg] at h
      exact absurd rfl h
  · intro cfg s qv id h
    unfold sgx_mra_responder_get_peer_identity at h ⊢
    split_ifs at h ⊢ with h1 h2 h3 <;> try rfl
    rcases hg : get_peer_identity s with e | out
    · rfl
    · try rw [hg] at h
      exact absurd rfl h
  · intro cfg s kt key h
    unfold sgx_mra_responder_get_keys at h ⊢
    split_ifs at h ⊢ with h1 h2 <;> try rfl
    rcases hg : get_keys s kt with e | k
    · rfl
    · try rw [hg] at h
      exact absurd rfl h

/-- Witness for the C10 theorem: failing calls (null pointers) to all five
entry points write nothing. -/
theorem c10_no_output_on_failure_witness :
    (sgx_mra_responder_init baseCfg 0).2 = none
    ∧ (sgx_dcap_mra_proc_msg1 baseCfg baseSession 0 2 3 4 5).written = none
    ∧ (sgx_dcap_mra_get_msg2 baseCfg baseSession 0 2 86).written = none
    ∧ (sgx_mra_responder_get_peer_identity baseCfg baseSession 0 2).written
        = none
    ∧ (sgx_mra_responder_get_keys baseCfg baseSession .sk 0).written
        = none :=
  ⟨c10_no_output_on_failure.1 baseCfg 0 (by decide),
   c10_no_output_on_failure.2.1 baseCfg baseSession 0 2 3 4 5 (by decide),
   c10_no_output_on_failure.2.2.1 baseCfg baseSession 0 2 86 (by decide),
   c10_no_output_on_failure.2.2.2.1 baseCfg baseSession 0 2 (by decide),
   c10_no_output_on_failure.2.2.2.2 baseCfg baseSession .sk 0 (by decide)⟩

end DcapMra
